import Mathlib

/-!
Shallow embedding of the fraud-detection decision core of the Rmgfr repository
(platform/api/src/services: rule_engine.py, decision_core.py, decision_matrix.py,
decision_gate.py, strategy_registry.py, plus the risk-bucket comprehensions of
real_time_dashboard.py and the enums of schemas/validation.py).

Conventions of the embedding:
* Python floats are modelled as `Rat`; Python ints as `Int`.  Python true
  division `/` raises `ZeroDivisionError` on a zero denominator, modelled by
  `pyDiv` in the `Except` monad; all other arithmetic is total.
* A Python function that can raise is modelled in `Except String`; a caught
  exception carries its message string.
* The rule-condition dict `rule.conditions : Dict[str, Any]` is only ever read
  through `conditions.get(key, default)` at the typed keys listed in
  `Conditions` (the same keys as the `RuleCondition` dataclass of
  decision_core.py), so it is modelled as a record of optional typed fields,
  with `Option.getD` playing the role of `dict.get`.
* `event_data : Dict[str, Any]` is modelled as an association list of `PyVal`
  (insertion order preserved, matching Python dict iteration), because the
  custom evaluator branches on `isinstance(value, str)`.
* Python string formatting `f"{x:.2f}"` / `f"{x:.3f}"` is modelled by
  `fmtFixed` (fixed-point rendering with round-half-even).
-/

/-- A Python value as stored in a string-keyed dict (event data, metadata). -/
inductive PyVal where
  | str (s : String)
  | int (n : Int)
  | rat (q : Rat)
  | bool (b : Bool)
  | none
deriving Repr, DecidableEq

/-- Lookup in a string-keyed association list, mirroring `dict.get(k)` /
`dict[k]` presence tests; Python dicts preserve insertion order and we only
build them by repeated insertion. -/
def dictGet? {α : Type} (d : List (String × α)) (k : String) : Option α :=
  (d.find? (fun kv => kv.1 = k)).map (fun kv => kv.2)

/-- Insert-or-overwrite, mirroring `d[k] = v` on a Python dict. -/
def dictInsert {α : Type} (d : List (String × α)) (k : String) (v : α) : List (String × α) :=
  if (d.find? (fun kv => kv.1 = k)).isSome
  then d.map (fun kv => if kv.1 = k then (k, v) else kv)
  else d ++ [(k, v)]

/-- Python 3 true division: raises ZeroDivisionError on a zero denominator. -/
def pyDiv (a b : Rat) : Except String Rat :=
  if b = 0 then Except.error "division by zero" else Except.ok (a / b)

/-- Python `max(iterable, default=d)`: the default is used only when the
iterable is empty. -/
def pyMaxD : List Rat → Rat → Rat
  | [], d => d
  | x :: xs, _ => xs.foldl max x

/-- Round to the nearest integer, ties to even (Python float formatting). -/
def roundHalfEven (q : Rat) : Int :=
  let f := q.floor
  let frac := q - (f : Rat)
  if frac < 1/2 then f
  else if (1:Rat)/2 < frac then f + 1
  else if f % 2 = 0 then f else f + 1

/-- Fixed-point decimal rendering with `prec` digits, modelling Python
`f"{x:.{prec}f}"` (up to binary-float representation noise, irrelevant here). -/
def fmtFixed (prec : Nat) (q : Rat) : String :=
  let n := roundHalfEven (q * (10 : Rat) ^ prec)
  let sign := if n < 0 then "-" else ""
  let m := n.natAbs
  let ip := m / 10 ^ prec
  let fp := m % 10 ^ prec
  let fpStr := toString fp
  sign ++ toString ip ++ "." ++ ("".pushn (Char.ofNat 48) (prec - fpStr.length) ++ fpStr)

/-- schemas/validation.py `RiskBand` (the enum decision_matrix.py and
strategy_registry.py import under this name — from the wrong module; see the
doc comment of `DecisionCore.make_decision` for the import slip). -/
inductive RiskBand where
  | low
  | med
  | high
  | critical
deriving Repr, DecidableEq

/-- The `.value` attribute of a RiskBand enum member. -/
def RiskBand.value : RiskBand → String
  | .low => "low"
  | .med => "med"
  | .high => "high"
  | .critical => "critical"

/-- rule_engine.py / decision_matrix.py `RuleAction` / `DecisionAction`
(allow, deny, review, step_up). -/
inductive DecisionAction where
  | allow
  | deny
  | review
  | step_up
deriving Repr, DecidableEq

/-- The `.value` attribute of a DecisionAction enum member. -/
def DecisionAction.value : DecisionAction → String
  | .allow => "allow"
  | .deny => "deny"
  | .review => "review"
  | .step_up => "step_up"

/-- decision_core.py `RuleType` (the only rule-kind enum; its four members are
exactly the keys of `TableDrivenRuleEngine.evaluators`). -/
inductive RuleType where
  | rate_limit
  | velocity
  | device
  | custom
deriving Repr, DecidableEq

/-- decision_core.py / rule_engine.py `RuleResult`. -/
structure RuleResult where
  fired : Bool
  reason : String
  risk_score : Rat
  rule_name : String
deriving Repr, DecidableEq

/-- decision_core.py `EventContext`. -/
structure EventContext where
  event_type : String
  event_data : List (String × PyVal)
  profile_id : Option String
  device_fingerprint : Option String
  ip_address : Option String
  amount : Option Rat
  created_at : String
  project_id : String
deriving Repr, DecidableEq

/-- decision_core.py `ProfileContext`. -/
structure ProfileContext where
  id : String
  created_at : String
  last_activity : Option String
deriving Repr, DecidableEq

/-- The typed keys read from `rule.conditions` by the evaluators of
rule_engine.py (same keys as the `RuleCondition` dataclass of decision_core.py
plus the geolocation/behavior keys); a missing key is `Option.none` and
`conditions.get(key, default)` is `Option.getD`. -/
structure Conditions where
  scope : Option String := Option.none
  time_window_minutes : Option Int := Option.none
  max_events : Option Int := Option.none
  max_velocity : Option Int := Option.none
  max_device_uses : Option Int := Option.none
  suspicious_keywords : Option (List String) := Option.none
  check_device_reuse : Option Bool := Option.none
  check_event_data : Option Bool := Option.none
  enable_vpn_detection : Option Bool := Option.none
  enable_location_consistency : Option Bool := Option.none
  max_location_changes : Option Int := Option.none
  enable_behavioral_analysis : Option Bool := Option.none
  behavior_threshold : Option Rat := Option.none
deriving Repr, DecidableEq

/-- rule_engine.py `RuleDefinition`. -/
structure RuleDefinition where
  name : String
  rule_type : RuleType
  conditions : Conditions
  action : DecisionAction
  priority : Int
  enabled : Bool := true
  description : String := ""
deriving Repr, DecidableEq

/-- The `ip_geolocation` dict of rule_engine.py as read through
`.get("is_vpn", False)` and `.get("location_changes", 0)`. -/
structure IpGeolocation where
  is_vpn : Bool := false
  location_changes : Int := 0
deriving Repr, DecidableEq

/-- rule_engine.py `RuleEvaluationContext`. -/
structure RuleEvaluationContext where
  event : EventContext
  profile : Option ProfileContext
  event_counts : List (String × Int)
  device_usage_count : Int
  ip_geolocation : Option IpGeolocation
  user_behavior_score : Rat
deriving Repr, DecidableEq

/-- `context.event_counts.get(scope, 0)`. -/
def countsGet (d : List (String × Int)) (k : String) : Int :=
  (dictGet? d k).getD 0

/-- Python truthiness of an `Optional[str]`: `None` and `""` are falsy. -/
def pyTruthyStrOpt : Option String → Bool
  | Option.none => false
  | Option.some s => !(s = "")

/-- rule_engine.py `RateLimitEvaluator._get_event_count_for_scope`. -/
def RateLimitEvaluator.get_event_count_for_scope
    (scope : String) (context : RuleEvaluationContext) : Int :=
  if scope = "ip" then countsGet context.event_counts "ip"
  else if scope = "profile" ∧ context.profile.isSome then countsGet context.event_counts "profile"
  else if scope = "device" then countsGet context.event_counts "device"
  else 0

/-- rule_engine.py `RateLimitEvaluator.evaluate` (lines 50-82). -/
def RateLimitEvaluator.evaluate
    (rule : RuleDefinition) (context : RuleEvaluationContext) : Except String RuleResult := do
  let conditions := rule.conditions
  let scope := conditions.scope.getD "ip"
  let time_window := conditions.time_window_minutes.getD 60
  let max_events := conditions.max_events.getD 100
  if !(scope = "ip" ∨ scope = "profile" ∨ scope = "device") then
    return { fired := false
             reason := "Invalid rate limit scope: " ++ scope
             risk_score := 0
             rule_name := rule.name }
  let event_count := RateLimitEvaluator.get_event_count_for_scope scope context
  if event_count > max_events then
    let q ← pyDiv (event_count : Rat) (max_events : Rat)
    let risk_score := min (9/10 : Rat) q
    return { fired := true
             reason := s!"Rate limit exceeded: {event_count} events in {time_window} minutes"
             risk_score := risk_score
             rule_name := rule.name }
  return { fired := false
           reason := s!"Rate limit OK: {event_count}/{max_events} events"
           risk_score := 0
           rule_name := rule.name }

/-- rule_engine.py `VelocityEvaluator.evaluate` (lines 97-129). -/
def VelocityEvaluator.evaluate
    (rule : RuleDefinition) (context : RuleEvaluationContext) : Except String RuleResult := do
  let conditions := rule.conditions
  let scope := conditions.scope.getD "profile"
  let time_window := conditions.time_window_minutes.getD 60
  let max_velocity := conditions.max_velocity.getD 10
  if !(scope = "profile") ∨ context.profile.isNone then
    return { fired := false
             reason := "Velocity check requires profile scope"
             risk_score := 0
             rule_name := rule.name }
  let velocity_count := countsGet context.event_counts "profile_velocity"
  if velocity_count > max_velocity then
    let q ← pyDiv (velocity_count : Rat) (max_velocity : Rat)
    let risk_score := min (8/10 : Rat) q
    return { fired := true
             reason := s!"Velocity exceeded: {velocity_count} events in {time_window} minutes"
             risk_score := risk_score
             rule_name := rule.name }
  return { fired := false
           reason := s!"Velocity OK: {velocity_count}/{max_velocity} events"
           risk_score := 0
           rule_name := rule.name }

/-- rule_engine.py `DeviceEvaluator.evaluate` (lines 134-164). -/
def DeviceEvaluator.evaluate
    (rule : RuleDefinition) (context : RuleEvaluationContext) : Except String RuleResult := do
  let conditions := rule.conditions
  if !(pyTruthyStrOpt context.event.device_fingerprint) then
    return { fired := false
             reason := "No device fingerprint available"
             risk_score := 0
             rule_name := rule.name }
  if conditions.check_device_reuse.getD false then
    let max_device_uses := conditions.max_device_uses.getD 5
    let device_usage_count := context.device_usage_count
    if device_usage_count > max_device_uses then
      let risk_score := min (7/10 : Rat) ((device_usage_count : Rat) / 10)
      return { fired := true
               reason := s!"Device overuse: {device_usage_count} events from same device"
               risk_score := risk_score
               rule_name := rule.name }
  return { fired := false
           reason := "Device fingerprint OK"
           risk_score := 0
           rule_name := rule.name }

/-- Python `needle in hay` on strings: contiguous substring test. -/
def strContains (hay needle : String) : Bool :=
  decide (needle.toList <:+: hay.toList)

/-- The keyword scan of `CustomEvaluator.evaluate`: first keyword matching a
string-valued entry of the event-data dict, scanning entries in insertion
order and keywords in list order, case-insensitively. -/
def findSuspicious (data : List (String × PyVal)) (keywords : List String) : Option String :=
  match data with
  | [] => Option.none
  | (_, v) :: rest =>
    match v with
    | PyVal.str s =>
      match keywords.find? (fun kw => strContains s.toLower kw.toLower) with
      | Option.some kw => Option.some kw
      | Option.none => findSuspicious rest keywords
    | _ => findSuspicious rest keywords

/-- rule_engine.py `CustomEvaluator.evaluate` (lines 169-208). -/
def CustomEvaluator.evaluate
    (rule : RuleDefinition) (context : RuleEvaluationContext) : Except String RuleResult := do
  let conditions := rule.conditions
  if !(conditions.check_event_data.getD false) then
    return { fired := false
             reason := "Custom rule conditions not met"
             risk_score := 0
             rule_name := rule.name }
  let suspicious_keywords := conditions.suspicious_keywords.getD []
  if suspicious_keywords = [] then
    return { fired := false
             reason := "No suspicious keywords configured"
             risk_score := 0
             rule_name := rule.name }
  match findSuspicious context.event.event_data suspicious_keywords with
  | Option.some keyword =>
    return { fired := true
             reason := s!"Suspicious keyword detected: {keyword}"
             risk_score := 6/10
             rule_name := rule.name }
  | Option.none =>
    return { fired := false
             reason := "Custom rule conditions not met"
             risk_score := 0
             rule_name := rule.name }

/-- rule_engine.py `GeolocationEvaluator.evaluate` (lines 213-254).  A present
but empty geolocation dict is falsy in Python exactly like `None`; both are
`Option.none` here (the distinction is unobservable downstream of the guard). -/
def GeolocationEvaluator.evaluate
    (rule : RuleDefinition) (context : RuleEvaluationContext) : Except String RuleResult := do
  let conditions := rule.conditions
  match context.ip_geolocation with
  | Option.none =>
    return { fired := false
             reason := "No geolocation data available"
             risk_score := 0
             rule_name := rule.name }
  | Option.some geo =>
    if conditions.enable_vpn_detection.getD false ∧ geo.is_vpn then
      return { fired := true
               reason := "VPN detected"
               risk_score := 5/10
               rule_name := rule.name }
    if conditions.enable_location_consistency.getD false then
      let max_changes := conditions.max_location_changes.getD 3
      let location_changes := geo.location_changes
      if location_changes > max_changes then
        let risk_score := min (6/10 : Rat) ((location_changes : Rat) / 10)
        return { fired := true
                 reason := s!"Too many location changes: {location_changes}"
                 risk_score := risk_score
                 rule_name := rule.name }
    return { fired := false
             reason := "Geolocation checks passed"
             risk_score := 0
             rule_name := rule.name }

/-- rule_engine.py `BehaviorEvaluator.evaluate` (lines 259-288). -/
def BehaviorEvaluator.evaluate
    (rule : RuleDefinition) (context : RuleEvaluationContext) : Except String RuleResult := do
  let conditions := rule.conditions
  if !(conditions.enable_behavioral_analysis.getD false) then
    return { fired := false
             reason := "Behavioral analysis not enabled"
             risk_score := 0
             rule_name := rule.name }
  let behavior_threshold := conditions.behavior_threshold.getD (7/10)
  let scoreStr := fmtFixed 2 context.user_behavior_score
  if context.user_behavior_score > behavior_threshold then
    let risk_score := min (8/10 : Rat) context.user_behavior_score
    return { fired := true
             reason := s!"Unusual behavior detected: score {scoreStr}"
             risk_score := risk_score
             rule_name := rule.name }
  return { fired := false
           reason := s!"Behavior normal: score {scoreStr}"
           risk_score := 0
           rule_name := rule.name }

/-- rule_engine.py `TableDrivenRuleEngine._evaluate_single_rule` (lines
349-373).  The registry `self.evaluators` holds exactly the four `RuleType`
members, so dispatch always hits a standard evaluator; the extended-evaluator
and unknown-type fallbacks are unreachable for a well-typed `RuleDefinition`. -/
def TableDrivenRuleEngine.evaluate_single_rule
    (rule : RuleDefinition) (context : RuleEvaluationContext) : Except String RuleResult :=
  match rule.rule_type with
  | RuleType.rate_limit => RateLimitEvaluator.evaluate rule context
  | RuleType.velocity => VelocityEvaluator.evaluate rule context
  | RuleType.device => DeviceEvaluator.evaluate rule context
  | RuleType.custom => CustomEvaluator.evaluate rule context

/-- The `try/except` body of `TableDrivenRuleEngine.evaluate_rules`: a raising
evaluation is caught and replaced by a non-firing result carrying the error
text. -/
def TableDrivenRuleEngine.try_evaluate
    (context : RuleEvaluationContext) (rule : RuleDefinition) : RuleResult :=
  match TableDrivenRuleEngine.evaluate_single_rule rule context with
  | Except.ok result => result
  | Except.error e =>
    { fired := false
      reason := "Rule evaluation error: " ++ e
      risk_score := 0
      rule_name := rule.name }

/-- Descending-priority order used by `sorted(rules, key=lambda r: r.priority,
reverse=True)`. -/
def prioGE (a b : RuleDefinition) : Prop := b.priority ≤ a.priority

instance : DecidableRel prioGE := fun a b => Int.decLe b.priority a.priority

instance : IsTotal RuleDefinition prioGE := ⟨fun a b => le_total b.priority a.priority⟩

instance : IsTrans RuleDefinition prioGE := ⟨fun _ _ _ h1 h2 => le_trans h2 h1⟩

/-- `sorted(rules, key=lambda r: r.priority, reverse=True)`: Python `sorted` is
a stable sort, here by descending priority.  Insertion sort with `prioGE`
places each element before the equal-priority elements that followed it, so it
is that stable sort (permutation, sortedness and stability are proved in
`evaluate_rules_priority_order`). -/
def pySortedDescPriority (rules : List RuleDefinition) : List RuleDefinition :=
  List.insertionSort prioGE rules

/-- The evaluation loop of `TableDrivenRuleEngine.evaluate_rules`: disabled
rules are skipped, every other rule contributes exactly one (caught) result. -/
def TableDrivenRuleEngine.run_rules
    (context : RuleEvaluationContext) : List RuleDefinition → List RuleResult
  | [] => []
  | rule :: rest =>
    if !rule.enabled then TableDrivenRuleEngine.run_rules context rest
    else TableDrivenRuleEngine.try_evaluate context rule ::
      TableDrivenRuleEngine.run_rules context rest

/-- rule_engine.py `TableDrivenRuleEngine.evaluate_rules` (lines 311-347). -/
def TableDrivenRuleEngine.evaluate_rules
    (rules : List RuleDefinition) (context : RuleEvaluationContext) : List RuleResult :=
  TableDrivenRuleEngine.run_rules context (pySortedDescPriority rules)

/-- strategy_registry.py `ComposableRule`: name, priority, enabled flag and an
`evaluate` method that may raise; the context type is abstract because member
rules only receive it opaquely. -/
structure ComposableRule (α : Type) where
  name : String
  priority : Int := 0
  enabled : Bool := true
  run : α → Except String RuleResult

/-- strategy_registry.py `RuleComposition.__init__`: member rules plus an
operator string. -/
structure RuleComposition (α : Type) where
  rules : List (ComposableRule α)
  operator : String

/-- `self.name = f"Composition({operator})"`. -/
def RuleComposition.name {α : Type} (self : RuleComposition α) : String :=
  "Composition(" ++ self.operator ++ ")"

/-- The member-evaluation loop of `RuleComposition.evaluate` (lines 77-93):
disabled members are skipped and a raising member is caught and replaced by a
non-firing error result. -/
def RuleComposition.gather {α : Type} (context : α) : List (ComposableRule α) → List RuleResult
  | [] => []
  | rule :: rest =>
    if !rule.enabled then RuleComposition.gather context rest
    else
      (match rule.run context with
       | Except.ok result => result
       | Except.error e =>
         { fired := false
           reason := "Rule evaluation error: " ++ e
           risk_score := 0
           rule_name := rule.name }) :: RuleComposition.gather context rest

/-- strategy_registry.py `RuleComposition._evaluate_and` (lines 104-126). -/
def RuleComposition.evaluate_and {α : Type}
    (self : RuleComposition α) (results : List RuleResult) : RuleResult :=
  let fired_rules := results.filter (fun r => r.fired)
  if fired_rules.length = results.length ∧ results.length > 0 then
    let max_risk := pyMaxD (fired_rules.map (fun r => r.risk_score)) 0
    let rule_names := fired_rules.map (fun r => r.rule_name)
    { fired := true
      reason := "All rules fired: " ++ String.intercalate ", " rule_names
      risk_score := max_risk
      rule_name := "AND(" ++ String.intercalate ", " rule_names ++ ")" }
  else
    { fired := false
      reason := "Not all rules fired"
      risk_score := 0
      rule_name := self.name }

/-- strategy_registry.py `RuleComposition._evaluate_or` (lines 128-149). -/
def RuleComposition.evaluate_or {α : Type}
    (self : RuleComposition α) (results : List RuleResult) : RuleResult :=
  let fired_rules := results.filter (fun r => r.fired)
  if fired_rules.length > 0 then
    let max_risk := pyMaxD (fired_rules.map (fun r => r.risk_score)) 0
    let rule_names := fired_rules.map (fun r => r.rule_name)
    { fired := true
      reason := "Any rule fired: " ++ String.intercalate ", " rule_names
      risk_score := max_risk
      rule_name := "OR(" ++ String.intercalate ", " rule_names ++ ")" }
  else
    { fired := false
      reason := "No rules fired"
      risk_score := 0
      rule_name := self.name }

/-- strategy_registry.py `RuleComposition._evaluate_majority` (lines 151-173);
`len(results) / 2` is Python true division, hence the rational threshold. -/
def RuleComposition.evaluate_majority {α : Type}
    (self : RuleComposition α) (results : List RuleResult) : RuleResult :=
  let fired_rules := results.filter (fun r => r.fired)
  let threshold : Rat := (results.length : Rat) / 2
  if (fired_rules.length : Rat) > threshold then
    let avg_risk := (fired_rules.map (fun r => r.risk_score)).sum / (fired_rules.length : Rat)
    let rule_names := fired_rules.map (fun r => r.rule_name)
    { fired := true
      reason := "Majority rules fired: " ++ String.intercalate ", " rule_names
      risk_score := avg_risk
      rule_name := "MAJORITY(" ++ String.intercalate ", " rule_names ++ ")" }
  else
    { fired := false
      reason := "Majority of rules did not fire"
      risk_score := 0
      rule_name := self.name }

/-- strategy_registry.py `RuleComposition.evaluate` (lines 75-102); an unknown
operator raises ValueError. -/
def RuleComposition.evaluate {α : Type}
    (self : RuleComposition α) (context : α) : Except String RuleResult :=
  let results := RuleComposition.gather context self.rules
  if self.operator = "AND" then Except.ok (self.evaluate_and results)
  else if self.operator = "OR" then Except.ok (self.evaluate_or results)
  else if self.operator = "MAJORITY" then Except.ok (self.evaluate_majority results)
  else Except.error ("Unknown operator: " ++ self.operator)

/-- decision_matrix.py `DecisionMatrixEntry`. -/
structure DecisionMatrixEntry where
  event_type : String
  risk_band : RiskBand
  customer_segment : String
  action : DecisionAction
  max_fpr : Rat
  confidence_threshold : Rat
  notes : String := ""
deriving Repr, DecidableEq

/-- decision_matrix.py `DecisionMatrixConfig`. -/
structure DecisionMatrixConfig where
  entries : List DecisionMatrixEntry
  default_action : DecisionAction := DecisionAction.review
  default_max_fpr : Rat := 1/100
  fpr_escalation_threshold : Rat := 8/10
deriving Repr, DecidableEq

/-- The result object constructed throughout decision_matrix.py, with fields
`action`, `confidence`, `reasons`, `rules_fired`, `metadata`.  (The source
constructs it under the name `DecisionResult` imported from decision_core.py,
whose dataclass of that name actually has fields `decision`/`risk_score`
instead — see the doc comment of `DecisionCore.make_decision`; the record here
is the shape the keyword arguments of decision_matrix.py spell out.) -/
structure MatrixDecisionResult where
  action : DecisionAction
  confidence : Rat
  reasons : List String
  rules_fired : List String
  metadata : List (String × PyVal)
deriving Repr, DecidableEq

/-- decision_matrix.py `DecisionMatrixEngine._generate_matrix_key`. -/
def DecisionMatrixEngine.generate_matrix_key
    (event_type : String) (risk_band : RiskBand) (customer_segment : String) : String :=
  event_type ++ ":" ++ risk_band.value ++ ":" ++ customer_segment

/-- decision_matrix.py `DecisionMatrixEngine._build_matrix_lookup` (lines
51-63): the key-to-entry dict built from the configured entries, later
duplicates overwriting earlier ones. -/
def DecisionMatrixEngine.build_matrix_lookup
    (config : DecisionMatrixConfig) : List (String × DecisionMatrixEntry) :=
  config.entries.foldl
    (fun matrix entry =>
      dictInsert matrix
        (DecisionMatrixEngine.generate_matrix_key
          entry.event_type entry.risk_band entry.customer_segment)
        entry)
    []

/-- The engine state set up by `DecisionMatrixEngine.__init__`: `self.matrix`
is `_build_matrix_lookup` of `self.config`. -/
def DecisionMatrixEngine.matrix
    (config : DecisionMatrixConfig) : List (String × DecisionMatrixEntry) :=
  DecisionMatrixEngine.build_matrix_lookup config

/-- decision_matrix.py `DecisionMatrixEngine._get_risk_score_from_band` (lines
198-206): the band-score dict holds all four `RiskBand` members, so the `.get`
default 0.5 is unreachable. -/
def DecisionMatrixEngine.get_risk_score_from_band (risk_band : RiskBand) : Rat :=
  match risk_band with
  | RiskBand.low => 2/10
  | RiskBand.med => 5/10
  | RiskBand.high => 7/10
  | RiskBand.critical => 9/10

/-- The construction `DecisionResult(action=..., confidence=..., reasons=...,
rules_fired=..., metadata=...)` performed in every branch of decision_matrix.py.
The `DecisionResult` in scope there is the decision_core.py dataclass, whose
fields are `decision`/`risk_score`/`reasons`/`rules_fired`/`metadata`, so
Python rejects the keyword `action`: the call raises TypeError unconditionally
instead of producing a value.  The intended record (the keyword arguments the
call spells out) is taken as an argument so each branch can state what it was
about to build. -/
def pyDecisionResultCtor (kwargs : MatrixDecisionResult) : Except String MatrixDecisionResult :=
  Except.error "TypeError: DecisionResult got an unexpected keyword argument action"

/-- decision_matrix.py `DecisionMatrixEngine._create_default_decision` (lines
120-144): the keyword arguments the branch passes to `DecisionResult`. -/
def DecisionMatrixEngine.default_decision_kwargs
    (config : DecisionMatrixConfig) (event : EventContext) (risk_band : RiskBand)
    (customer_segment : String) : MatrixDecisionResult :=
  let et := event.event_type
  let bv := risk_band.value
  let mf := fmtFixed 3 config.default_max_fpr
  { action := config.default_action
    confidence := 1 - DecisionMatrixEngine.get_risk_score_from_band risk_band
    reasons :=
      [ s!"Using default decision for {et}"
      , s!"Risk band: {bv}"
      , s!"Customer segment: {customer_segment}"
      , s!"Max FPR: {mf}" ]
    rules_fired := ["default_decision"]
    metadata :=
      [ ("matrix_key", PyVal.str (DecisionMatrixEngine.generate_matrix_key et risk_band customer_segment))
      , ("is_default", PyVal.bool true) ] }

/-- decision_matrix.py `DecisionMatrixEngine._create_default_decision` itself:
it computes the keyword arguments above and then performs the raising
`DecisionResult(...)` call, so it never returns a decision. -/
def DecisionMatrixEngine.create_default_decision
    (config : DecisionMatrixConfig) (event : EventContext) (risk_band : RiskBand)
    (customer_segment : String) : Except String MatrixDecisionResult :=
  pyDecisionResultCtor
    (DecisionMatrixEngine.default_decision_kwargs config event risk_band customer_segment)

/-- decision_matrix.py `DecisionMatrixEngine._create_fpr_escalation_decision`
(lines 146-166): the keyword arguments the branch passes to `DecisionResult`. -/
def DecisionMatrixEngine.fpr_escalation_kwargs
    (matrix_entry : DecisionMatrixEntry) (current_fpr : Rat) : MatrixDecisionResult :=
  let cf := fmtFixed 3 current_fpr
  let mf := fmtFixed 3 matrix_entry.max_fpr
  let av := matrix_entry.action.value
  { action := DecisionAction.review
    confidence := 8/10
    reasons :=
      [ s!"FPR {cf} exceeds threshold {mf}"
      , s!"Escalating {av} to review" ]
    rules_fired := ["fpr_escalation"]
    metadata :=
      [ ("original_action", PyVal.str av)
      , ("fpr_threshold", PyVal.rat matrix_entry.max_fpr)
      , ("current_fpr", PyVal.rat current_fpr)
      , ("is_escalation", PyVal.bool true) ] }

/-- decision_matrix.py `DecisionMatrixEngine._create_fpr_escalation_decision`
itself: the raising `DecisionResult(...)` call on those keyword arguments. -/
def DecisionMatrixEngine.create_fpr_escalation_decision
    (matrix_entry : DecisionMatrixEntry) (current_fpr : Rat) : Except String MatrixDecisionResult :=
  pyDecisionResultCtor (DecisionMatrixEngine.fpr_escalation_kwargs matrix_entry current_fpr)

/-- decision_matrix.py `DecisionMatrixEngine._create_normal_decision` (lines
168-196): the keyword arguments the branch passes to `DecisionResult`. -/
def DecisionMatrixEngine.normal_decision_kwargs
    (matrix_entry : DecisionMatrixEntry) (event : EventContext) (risk_band : RiskBand)
    (customer_segment : String) : MatrixDecisionResult :=
  let confidence := 1 - DecisionMatrixEngine.get_risk_score_from_band risk_band
  let bv := risk_band.value
  let av := matrix_entry.action.value
  let mf := fmtFixed 3 matrix_entry.max_fpr
  let ct := fmtFixed 3 matrix_entry.confidence_threshold
  let met := matrix_entry.event_type
  { action := matrix_entry.action
    confidence := confidence
    reasons :=
      [ s!"Risk band: {bv}"
      , s!"Customer segment: {customer_segment}"
      , s!"Action: {av}"
      , s!"Max FPR: {mf}"
      , s!"Confidence threshold: {ct}" ]
    rules_fired := [s!"matrix_{met}_{bv}"]
    metadata :=
      [ ("matrix_key", PyVal.str (DecisionMatrixEngine.generate_matrix_key event.event_type risk_band customer_segment))
      , ("confidence_threshold", PyVal.rat matrix_entry.confidence_threshold)
      , ("is_normal", PyVal.bool true) ] }

/-- decision_matrix.py `DecisionMatrixEngine._create_normal_decision` itself:
the raising `DecisionResult(...)` call on those keyword arguments. -/
def DecisionMatrixEngine.create_normal_decision
    (matrix_entry : DecisionMatrixEntry) (event : EventContext) (risk_band : RiskBand)
    (customer_segment : String) : Except String MatrixDecisionResult :=
  pyDecisionResultCtor
    (DecisionMatrixEngine.normal_decision_kwargs matrix_entry event risk_band customer_segment)

/-- decision_matrix.py `DecisionMatrixEngine.decide` (lines 74-118).  The
branch selection (default on a missing entry, FPR escalation when
`current_fpr > entry.max_fpr`, normal otherwise) is faithful, but every branch
ends in the raising `DecisionResult(...)` construction, so `decide` never
returns a decision — and the module cannot even be loaded, because its
`RiskBand` import from decision_core.py fails. -/
def DecisionMatrixEngine.decide
    (config : DecisionMatrixConfig) (event : EventContext) (risk_band : RiskBand)
    (customer_segment : String) (current_fpr : Rat) : Except String MatrixDecisionResult :=
  let matrix_key :=
    DecisionMatrixEngine.generate_matrix_key event.event_type risk_band customer_segment
  match dictGet? (DecisionMatrixEngine.matrix config) matrix_key with
  | Option.none =>
    DecisionMatrixEngine.create_default_decision config event risk_band customer_segment
  | Option.some matrix_entry =>
    if current_fpr > matrix_entry.max_fpr then
      DecisionMatrixEngine.create_fpr_escalation_decision matrix_entry current_fpr
    else
      DecisionMatrixEngine.create_normal_decision matrix_entry event risk_band customer_segment

/-- decision_matrix.py `DecisionMatrixFactory.create_default_config` (lines
258-347). -/
def DecisionMatrixFactory.create_default_config : DecisionMatrixConfig :=
  { entries :=
      [ { event_type := "login", risk_band := RiskBand.low, customer_segment := "new_user"
          action := DecisionAction.allow, max_fpr := 1/100, confidence_threshold := 8/10
          notes := "New user login with low risk" }
      , { event_type := "login", risk_band := RiskBand.low, customer_segment := "returning"
          action := DecisionAction.allow, max_fpr := 5/1000, confidence_threshold := 9/10
          notes := "Returning user login with low risk" }
      , { event_type := "payment", risk_band := RiskBand.med, customer_segment := "new_user"
          action := DecisionAction.step_up, max_fpr := 8/1000, confidence_threshold := 7/10
          notes := "New user payment with medium risk" }
      , { event_type := "payment", risk_band := RiskBand.med, customer_segment := "returning"
          action := DecisionAction.allow, max_fpr := 3/1000, confidence_threshold := 8/10
          notes := "Returning user payment with medium risk" }
      , { event_type := "payment", risk_band := RiskBand.high, customer_segment := "new_user"
          action := DecisionAction.review, max_fpr := 5/1000, confidence_threshold := 6/10
          notes := "New user payment with high risk" }
      , { event_type := "payment", risk_band := RiskBand.high, customer_segment := "returning"
          action := DecisionAction.step_up, max_fpr := 2/1000, confidence_threshold := 7/10
          notes := "Returning user payment with high risk" }
      , { event_type := "payment", risk_band := RiskBand.critical, customer_segment := "new_user"
          action := DecisionAction.deny, max_fpr := 1/1000, confidence_threshold := 5/10
          notes := "New user payment with critical risk" }
      , { event_type := "payment", risk_band := RiskBand.critical, customer_segment := "returning"
          action := DecisionAction.review, max_fpr := 1/1000, confidence_threshold := 6/10
          notes := "Returning user payment with critical risk" } ]
    default_action := DecisionAction.review
    default_max_fpr := 1/100
    fpr_escalation_threshold := 8/10 }

/-- decision_core.py `DecisionCore._calculate_risk_score` (lines 371-386). -/
def DecisionCore.calculate_risk_score (rule_results : List RuleResult) : Rat :=
  if rule_results = [] then 0
  else
    let fired_rules := rule_results.filter (fun r => r.fired)
    let max_risk := pyMaxD (fired_rules.map (fun r => r.risk_score)) 0
    if fired_rules.length > 1 then
      let multiplier := min (12/10 : Rat) (1 + ((fired_rules.length : Rat) - 1) * (1/10))
      min 1 (max_risk * multiplier)
    else max_risk

/-- decision_core.py `DecisionCore._get_risk_band` (lines 388-397): note the
return type is a plain string, not the `RiskBand` enum. -/
def DecisionCore.get_risk_band (risk_score : Rat) : String :=
  if risk_score < 3/10 then "low"
  else if risk_score < 6/10 then "med"
  else if risk_score < 8/10 then "high"
  else "critical"

/-- decision_gate.py `DecisionGate._get_risk_band` (lines 53-62). -/
def DecisionGate.get_risk_band (risk_score : Rat) : String :=
  if risk_score < 3/10 then "low"
  else if risk_score < 6/10 then "med"
  else if risk_score < 8/10 then "high"
  else "critical"

/-- real_time_dashboard.py `update_metrics` (lines 55-57): membership
predicate of the `high_risk` bucket, `risk_score > 0.7`. -/
def RealTimeDashboard.high_risk_pred (risk_score : Rat) : Bool :=
  risk_score > 7/10

/-- real_time_dashboard.py `update_metrics` (line 56): membership predicate of
the `medium_risk` bucket, `0.3 < risk_score <= 0.7` (same bucketing as
advanced_analytics.py `generate_risk_insights`, lines 176-178). -/
def RealTimeDashboard.medium_risk_pred (risk_score : Rat) : Bool :=
  3/10 < risk_score ∧ risk_score ≤ 7/10

/-- real_time_dashboard.py `update_metrics` (line 57): membership predicate of
the `low_risk` bucket, `risk_score <= 0.3`. -/
def RealTimeDashboard.low_risk_pred (risk_score : Rat) : Bool :=
  risk_score ≤ 3/10

/-- decision_core.py `DecisionResult` dataclass (lines 64-71): fields
`decision`, `risk_score`, `reasons`, `rules_fired`, `metadata`. -/
structure CoreDecisionResult where
  decision : String
  risk_score : Rat
  reasons : List String
  rules_fired : List String
  metadata : List (String × PyVal)
deriving Repr, DecidableEq

/-- Python attribute read `x.value` performed on a plain `str`: a `str` has no
`value` attribute, so the read raises `AttributeError` unconditionally. -/
def pyStrAttrValue (s : String) : Except String String :=
  Except.error "AttributeError: str object has no attribute value"

/-- decision_core.py `DecisionCore.make_decision` (lines 318-369), embedded
with its run-time behaviour.  The source computes
`risk_band = self._get_risk_band(risk_score)`, a plain string, and passes it
to `DecisionMatrixEngine.decide`, whose first operation
(`_generate_matrix_key`) reads `risk_band.value`; on a `str` that attribute
read raises, so the call never gets further (reaching this code at all also
requires decision_matrix.py's `from .decision_core import ... RiskBand` to
succeed, which it cannot, since decision_core.py defines no `RiskBand`; and
the `DecisionResult(action=..., confidence=...)` constructions inside `decide`
would raise `TypeError` against the dataclass of `CoreDecisionResult` shape).
The embedding therefore models the computation up to the raising attribute
read; everything after it is unreachable. -/
def DecisionCore.make_decision
    (config : DecisionMatrixConfig) (rule_results : List RuleResult) (event : EventContext)
    (customer_segment : String) (current_fpr : Rat) : Except String CoreDecisionResult :=
  let risk_score := DecisionCore.calculate_risk_score rule_results
  let risk_band := DecisionCore.get_risk_band risk_score
  (pyStrAttrValue risk_band).bind fun _ =>
    Except.error "unreachable: DecisionMatrixEngine.decide cannot proceed past generate_matrix_key on a str risk_band"

/-- A payment event like the fixture of tests/test_decision_core.py. -/
def sampleEvent : EventContext :=
  { event_type := "payment"
    event_data := [("description", PyVal.str "a test transaction")]
    profile_id := Option.some "user123"
    device_fingerprint := Option.some "device456"
    ip_address := Option.some "192.168.1.1"
    amount := Option.some 100
    created_at := "2025-01-01T00:00:00"
    project_id := "project789" }

/-- A signup event whose matrix key is absent from the default configuration. -/
def sampleSignupEvent : EventContext :=
  { sampleEvent with event_type := "signup" }

/-- An event carrying no optional data. -/
def bareEvent : EventContext :=
  { event_type := "login"
    event_data := []
    profile_id := Option.none
    device_fingerprint := Option.none
    ip_address := Option.none
    amount := Option.none
    created_at := "2025-01-01T00:00:00"
    project_id := "p" }

/-- An evaluation context with no profile, no counters, no geolocation. -/
def bareContext : RuleEvaluationContext :=
  { event := bareEvent
    profile := Option.none
    event_counts := []
    device_usage_count := 0
    ip_geolocation := Option.none
    user_behavior_score := 0 }

/-- An evaluation context recording 6 events on the ip counter. -/
def ipSixContext : RuleEvaluationContext :=
  { bareContext with event_counts := [("ip", 6)] }

/-- A rule with no configured conditions. -/
def bareRule : RuleDefinition :=
  { name := "r"
    rule_type := RuleType.custom
    conditions := {}
    action := DecisionAction.review
    priority := 0 }

/-- A rate-limit rule whose scope condition is the unsupported string email. -/
def emailScopeRule : RuleDefinition :=
  { bareRule with
      name := "rl_email"
      rule_type := RuleType.rate_limit
      conditions := { scope := Option.some "email" } }

/-- A rate-limit rule with profile scope and the default max_events. -/
def profileScopeRule : RuleDefinition :=
  { bareRule with
      name := "rl_profile"
      rule_type := RuleType.rate_limit
      conditions := { scope := Option.some "profile" } }

/-- A rate-limit rule with profile scope and a negative max_events. -/
def profileScopeNegRule : RuleDefinition :=
  { bareRule with
      name := "rl_profile_neg"
      rule_type := RuleType.rate_limit
      conditions := { scope := Option.some "profile", max_events := Option.some (-1) } }

/-- Scenario A of the spec: a rate-limit rule with max_events = 5 on the
default ip scope. -/
def ipLimitFiveRule : RuleDefinition :=
  { bareRule with
      name := "rl_ip5"
      rule_type := RuleType.rate_limit
      conditions := { max_events := Option.some 5 } }

/-- On strings, `toString` is the identity. -/
theorem toString_string_id (s : String) : toString s = s := rfl

/-- C1: the claim that per-rule evaluator errors are caught (which
`TableDrivenRuleEngine.evaluate_rules` indeed does, through the catch in
`TableDrivenRuleEngine.try_evaluate`) and that `make_decision` always returns a
complete `DecisionResult` fails on the code: `DecisionCore.make_decision`
passes the plain string produced by `DecisionCore.get_risk_band` where
`DecisionMatrixEngine.decide` expects a `RiskBand` enum member, and the very
first attribute read `risk_band.value` raises `AttributeError` — so
`make_decision` raises on every input instead of returning a decision. -/
theorem make_decision_never_returns
    (config : DecisionMatrixConfig) (rule_results : List RuleResult) (event : EventContext)
    (customer_segment : String) (current_fpr : Rat) :
    DecisionCore.make_decision config rule_results event customer_segment current_fpr
      = Except.error "AttributeError: str object has no attribute value" := rfl

/-- C3: the aggregate risk score is the maximum risk contribution among fired
results (Python max with default 0), amplified by
`min(1.2, 1.0 + 0.1*(fired_count-1))` exactly when strictly more than one
result fired, then clamped to 1; in particular two fired results with risks
0.3 and 0.6 aggregate to 0.66. -/
theorem calculate_risk_score_max_amplified (rule_results : List RuleResult) :
    (DecisionCore.calculate_risk_score rule_results =
      (let fired := rule_results.filter (fun r => r.fired)
       let base := pyMaxD (fired.map (fun r => r.risk_score)) 0
       if 1 < fired.length then
         min 1 (base * min (12/10 : Rat) (1 + ((fired.length : Rat) - 1) * (1/10)))
       else base))
    ∧ DecisionCore.calculate_risk_score
        [ { fired := true, reason := "a", risk_score := 3/10, rule_name := "r1" }
        , { fired := true, reason := "b", risk_score := 6/10, rule_name := "r2" } ]
      = 66/100 := by
  constructor
  · cases rule_results with
    | nil => rfl
    | cons h t => rfl
  · show DecisionCore.calculate_risk_score _ = _
    norm_num [DecisionCore.calculate_risk_score, pyMaxD, List.filter, min_def] <;> simp

/-- C4 (counterexample): the call sites do not all classify scores with the
same partition.  At score 0.3 `DecisionCore.get_risk_band` answers med while
the risk bucketing of real_time_dashboard.py puts the same score in its low
bucket and not in its medium one; at 0.7 the former answers high while the
latter puts it in the medium bucket and not in the high one; at 0.9 the former
answers critical while the latter puts it in its top (high) bucket — it has no
critical bucket at all. -/
theorem risk_band_call_sites_disagree :
    DecisionCore.get_risk_band (3/10) = "med"
    ∧ RealTimeDashboard.low_risk_pred (3/10) = true
    ∧ RealTimeDashboard.medium_risk_pred (3/10) = false
    ∧ DecisionCore.get_risk_band (7/10) = "high"
    ∧ RealTimeDashboard.medium_risk_pred (7/10) = true
    ∧ RealTimeDashboard.high_risk_pred (7/10) = false
    ∧ DecisionCore.get_risk_band (9/10) = "critical"
    ∧ RealTimeDashboard.high_risk_pred (9/10) = true
    ∧ RealTimeDashboard.medium_risk_pred (9/10) = false := by
  refine ⟨?_, ?_, ?_, ?_, ?_, ?_, ?_, ?_, ?_⟩ <;>
    norm_num [DecisionCore.get_risk_band, RealTimeDashboard.low_risk_pred,
      RealTimeDashboard.medium_risk_pred, RealTimeDashboard.high_risk_pred]

/-- C4 (amended): the two `_get_risk_band` call sites named by the claim
(decision_core.py and decision_gate.py) agree and both implement the half-open
partition low on scores below 0.3, med on [0.3, 0.6), high on [0.6, 0.8) and
critical from 0.8 up.  But not every call site classifying a score into a band
uses that partition: the bucketing of real_time_dashboard.py /
advanced_analytics.py (low iff s ≤ 0.3, medium iff 0.3 < s ≤ 0.7, high iff
s > 0.7) disagrees with it at the point 0.3 (med vs low bucket), on all of
[0.6, 0.7] (high vs medium bucket) and on all of [0.8, 1.0] (critical vs the
top bucket, merely high). -/
theorem get_risk_band_halfopen (s : Rat) :
    DecisionCore.get_risk_band s = DecisionGate.get_risk_band s
    ∧ (s < 3/10 → DecisionCore.get_risk_band s = "low")
    ∧ (3/10 ≤ s → s < 6/10 → DecisionCore.get_risk_band s = "med")
    ∧ (6/10 ≤ s → s < 8/10 → DecisionCore.get_risk_band s = "high")
    ∧ (8/10 ≤ s → DecisionCore.get_risk_band s = "critical")
    ∧ (RealTimeDashboard.low_risk_pred s = true ↔ s ≤ 3/10)
    ∧ (RealTimeDashboard.medium_risk_pred s = true ↔ 3/10 < s ∧ s ≤ 7/10)
    ∧ (RealTimeDashboard.high_risk_pred s = true ↔ 7/10 < s)
    ∧ (6/10 ≤ s → s ≤ 7/10 →
        DecisionCore.get_risk_band s = "high"
        ∧ RealTimeDashboard.medium_risk_pred s = true
        ∧ RealTimeDashboard.high_risk_pred s = false)
    ∧ (8/10 ≤ s →
        DecisionCore.get_risk_band s = "critical"
        ∧ RealTimeDashboard.high_risk_pred s = true
        ∧ RealTimeDashboard.medium_risk_pred s = false)
    ∧ (DecisionCore.get_risk_band (3/10) = "med"
        ∧ RealTimeDashboard.low_risk_pred (3/10) = true
        ∧ RealTimeDashboard.medium_risk_pred (3/10) = false) := by
  refine ⟨rfl, ?_, ?_, ?_, ?_, ?_, ?_, ?_, ?_, ?_, ?_⟩
  · intro h
    unfold DecisionCore.get_risk_band
    split_ifs <;> first | rfl | linarith
  · intro h1 h2
    unfold DecisionCore.get_risk_band
    split_ifs <;> first | rfl | linarith
  · intro h1 h2
    unfold DecisionCore.get_risk_band
    split_ifs <;> first | rfl | linarith
  · intro h
    unfold DecisionCore.get_risk_band
    split_ifs <;> first | rfl | linarith
  · simp [RealTimeDashboard.low_risk_pred]
  · simp [RealTimeDashboard.medium_risk_pred]
  · simp [RealTimeDashboard.high_risk_pred]
  · intro h1 h2
    refine ⟨?_, ?_, ?_⟩
    · unfold DecisionCore.get_risk_band
      split_ifs <;> first | rfl | linarith
    · simp only [RealTimeDashboard.medium_risk_pred, decide_eq_true_eq]
      constructor <;> linarith
    · simp only [RealTimeDashboard.high_risk_pred, decide_eq_false_iff_not]
      linarith
  · intro h
    refine ⟨?_, ?_, ?_⟩
    · unfold DecisionCore.get_risk_band
      split_ifs <;> first | rfl | linarith
    · simp only [RealTimeDashboard.high_risk_pred, decide_eq_true_eq]
      linarith
    · simp only [RealTimeDashboard.medium_risk_pred, decide_eq_false_iff_not]
      rintro ⟨h1, h2⟩
      linarith
  · refine ⟨?_, ?_, ?_⟩ <;>
      norm_num [DecisionCore.get_risk_band, RealTimeDashboard.low_risk_pred,
        RealTimeDashboard.medium_risk_pred]

/-- C4 (witness for the amended claim): bands of 0.1, 0.45, 0.7, 0.9; core and
gate agree at 0.45; the dashboard bucketing and the half-open partition
disagree at 0.7 (high vs medium bucket) and at 0.9 (critical vs high
bucket). -/
theorem get_risk_band_halfopen_witness :
    DecisionCore.get_risk_band (1/10) = "low"
    ∧ DecisionCore.get_risk_band (45/100) = "med"
    ∧ DecisionCore.get_risk_band (7/10) = "high"
    ∧ DecisionCore.get_risk_band (9/10) = "critical"
    ∧ DecisionCore.get_risk_band (45/100) = DecisionGate.get_risk_band (45/100)
    ∧ (DecisionCore.get_risk_band (7/10) = "high"
        ∧ RealTimeDashboard.medium_risk_pred (7/10) = true
        ∧ RealTimeDashboard.high_risk_pred (7/10) = false)
    ∧ (DecisionCore.get_risk_band (9/10) = "critical"
        ∧ RealTimeDashboard.high_risk_pred (9/10) = true
        ∧ RealTimeDashboard.medium_risk_pred (9/10) = false) :=
  ⟨(get_risk_band_halfopen (1/10)).2.1 (by norm_num),
   (get_risk_band_halfopen (45/100)).2.2.1 (by norm_num) (by norm_num),
   (get_risk_band_halfopen (7/10)).2.2.2.1 (by norm_num) (by norm_num),
   (get_risk_band_halfopen (9/10)).2.2.2.2.1 (by norm_num),
   (get_risk_band_halfopen (45/100)).1,
   (get_risk_band_halfopen (7/10)).2.2.2.2.2.2.2.2.1 (by norm_num) (by norm_num),
   (get_risk_band_halfopen (9/10)).2.2.2.2.2.2.2.2.2.1 (by norm_num)⟩

/-- C2: the claim describes exactly the keyword arguments the FPR-escalation
branch passes to `DecisionResult` — action review regardless of the entry's
configured action, confidence 0.8, reasons citing the breach and the
escalation, `is_escalation = true` metadata — and `decide` does select that
branch whenever an entry exists and `current_fpr > entry.max_fpr`.  But the
construction itself raises TypeError (the `DecisionResult` in scope is the
decision_core.py dataclass, which has no keyword `action`), and
decision_matrix.py cannot even be imported, so `decide` raises instead of
returning the claimed escalation decision. -/
theorem decide_fpr_escalation_branch_raises
    (config : DecisionMatrixConfig) (event : EventContext) (risk_band : RiskBand)
    (customer_segment : String) (current_fpr : Rat) (entry : DecisionMatrixEntry)
    (hentry : dictGet? (DecisionMatrixEngine.matrix config)
        (DecisionMatrixEngine.generate_matrix_key event.event_type risk_band customer_segment)
      = Option.some entry)
    (hfpr : current_fpr > entry.max_fpr) :
    DecisionMatrixEngine.decide config event risk_band customer_segment current_fpr
      = DecisionMatrixEngine.create_fpr_escalation_decision entry current_fpr
    ∧ DecisionMatrixEngine.decide config event risk_band customer_segment current_fpr
      = Except.error "TypeError: DecisionResult got an unexpected keyword argument action"
    ∧ (DecisionMatrixEngine.fpr_escalation_kwargs entry current_fpr).action
      = DecisionAction.review
    ∧ (DecisionMatrixEngine.fpr_escalation_kwargs entry current_fpr).confidence = 8/10
    ∧ (DecisionMatrixEngine.fpr_escalation_kwargs entry current_fpr).reasons
      = [ "FPR " ++ fmtFixed 3 current_fpr ++ " exceeds threshold " ++ fmtFixed 3 entry.max_fpr
        , "Escalating " ++ entry.action.value ++ " to review" ]
    ∧ dictGet? (DecisionMatrixEngine.fpr_escalation_kwargs entry current_fpr).metadata
        "is_escalation"
      = Option.some (PyVal.bool true) := by
  have hd : DecisionMatrixEngine.decide config event risk_band customer_segment current_fpr
      = DecisionMatrixEngine.create_fpr_escalation_decision entry current_fpr := by
    unfold DecisionMatrixEngine.decide
    simp only [hentry]
    simp [hfpr]
  refine ⟨hd, ?_, rfl, rfl, ?_, rfl⟩
  · rw [hd]
    rfl
  · simp only [DecisionMatrixEngine.fpr_escalation_kwargs, toString_string_id,
      String.append_empty]

/-- C2 (witness): with the factory default configuration, scenario D of the
spec — a payment at critical band for a new_user maps to an entry configured
deny with max_fpr 0.001; at current_fpr 0.01 the escalation branch is
selected, its keyword arguments are review/0.8/breach reasons/is_escalation,
and the construction raises the TypeError. -/
theorem decide_fpr_escalation_branch_raises_witness :
    DecisionMatrixEngine.decide DecisionMatrixFactory.create_default_config sampleEvent
        RiskBand.critical "new_user" (1/100)
      = DecisionMatrixEngine.create_fpr_escalation_decision
          { event_type := "payment", risk_band := RiskBand.critical, customer_segment := "new_user"
            action := DecisionAction.deny, max_fpr := 1/1000, confidence_threshold := 5/10
            notes := "New user payment with critical risk" } (1/100)
    ∧ DecisionMatrixEngine.decide DecisionMatrixFactory.create_default_config sampleEvent
        RiskBand.critical "new_user" (1/100)
      = Except.error "TypeError: DecisionResult got an unexpected keyword argument action"
    ∧ (DecisionMatrixEngine.fpr_escalation_kwargs
        { event_type := "payment", risk_band := RiskBand.critical, customer_segment := "new_user"
          action := DecisionAction.deny, max_fpr := 1/1000, confidence_threshold := 5/10
          notes := "New user payment with critical risk" } (1/100)).action
      = DecisionAction.review
    ∧ (DecisionMatrixEngine.fpr_escalation_kwargs
        { event_type := "payment", risk_band := RiskBand.critical, customer_segment := "new_user"
          action := DecisionAction.deny, max_fpr := 1/1000, confidence_threshold := 5/10
          notes := "New user payment with critical risk" } (1/100)).confidence = 8/10
    ∧ (DecisionMatrixEngine.fpr_escalation_kwargs
        { event_type := "payment", risk_band := RiskBand.critical, customer_segment := "new_user"
          action := DecisionAction.deny, max_fpr := 1/1000, confidence_threshold := 5/10
          notes := "New user payment with critical risk" } (1/100)).reasons
      = [ "FPR " ++ fmtFixed 3 (1/100) ++ " exceeds threshold " ++ fmtFixed 3 (1/1000)
        , "Escalating " ++ DecisionAction.value DecisionAction.deny ++ " to review" ]
    ∧ dictGet? (DecisionMatrixEngine.fpr_escalation_kwargs
        { event_type := "payment", risk_band := RiskBand.critical, customer_segment := "new_user"
          action := DecisionAction.deny, max_fpr := 1/1000, confidence_threshold := 5/10
          notes := "New user payment with critical risk" } (1/100)).metadata "is_escalation"
      = Option.some (PyVal.bool true) :=
  decide_fpr_escalation_branch_raises DecisionMatrixFactory.create_default_config sampleEvent
    RiskBand.critical "new_user" (1/100)
    { event_type := "payment", risk_band := RiskBand.critical, customer_segment := "new_user"
      action := DecisionAction.deny, max_fpr := 1/1000, confidence_threshold := 5/10
      notes := "New user payment with critical risk" }
    (by rfl)
    (by norm_num)

/-- C5: the claim describes exactly the keyword arguments the default branch
passes to `DecisionResult` — the configured default action, confidence one
minus the band score (band scores low 0.2, med 0.5, high 0.7, critical 0.9),
reasons noting the fallback, `is_default = true` metadata — and `decide` does
select that branch whenever no matrix entry exists for the key.  But the
construction itself raises TypeError (the `DecisionResult` in scope is the
decision_core.py dataclass, which has no keyword `action`), and
decision_matrix.py cannot even be imported, so `decide` raises instead of
returning the claimed default decision. -/
theorem decide_default_branch_raises
    (config : DecisionMatrixConfig) (event : EventContext) (risk_band : RiskBand)
    (customer_segment : String) (current_fpr : Rat)
    (hnone : dictGet? (DecisionMatrixEngine.matrix config)
        (DecisionMatrixEngine.generate_matrix_key event.event_type risk_band customer_segment)
      = Option.none) :
    DecisionMatrixEngine.decide config event risk_band customer_segment current_fpr
      = DecisionMatrixEngine.create_default_decision config event risk_band customer_segment
    ∧ DecisionMatrixEngine.decide config event risk_band customer_segment current_fpr
      = Except.error "TypeError: DecisionResult got an unexpected keyword argument action"
    ∧ (DecisionMatrixEngine.default_decision_kwargs config event risk_band customer_segment).action
      = config.default_action
    ∧ (DecisionMatrixEngine.default_decision_kwargs config event risk_band
        customer_segment).confidence
      = 1 - DecisionMatrixEngine.get_risk_score_from_band risk_band
    ∧ DecisionMatrixEngine.get_risk_score_from_band RiskBand.low = 2/10
    ∧ DecisionMatrixEngine.get_risk_score_from_band RiskBand.med = 5/10
    ∧ DecisionMatrixEngine.get_risk_score_from_band RiskBand.high = 7/10
    ∧ DecisionMatrixEngine.get_risk_score_from_band RiskBand.critical = 9/10
    ∧ (DecisionMatrixEngine.default_decision_kwargs config event risk_band
        customer_segment).reasons
      = [ "Using default decision for " ++ event.event_type
        , "Risk band: " ++ risk_band.value
        , "Customer segment: " ++ customer_segment
        , "Max FPR: " ++ fmtFixed 3 config.default_max_fpr ]
    ∧ dictGet? (DecisionMatrixEngine.default_decision_kwargs config event risk_band
        customer_segment).metadata "is_default"
      = Option.some (PyVal.bool true) := by
  have hd : DecisionMatrixEngine.decide config event risk_band customer_segment current_fpr
      = DecisionMatrixEngine.create_default_decision config event risk_band customer_segment := by
    unfold DecisionMatrixEngine.decide
    simp only [hnone]
  refine ⟨hd, ?_, rfl, rfl, rfl, rfl, rfl, rfl, ?_, rfl⟩
  · rw [hd]
    rfl
  · simp only [DecisionMatrixEngine.default_decision_kwargs, toString_string_id,
      String.append_empty]

/-- C5 (witness): the factory default configuration has no entry for a signup
at low band for a new_user, so the default branch is selected; its keyword
arguments are the default action review with confidence 1 - 0.2 and is_default
metadata, and the construction raises the TypeError. -/
theorem decide_default_branch_raises_witness :
    DecisionMatrixEngine.decide DecisionMatrixFactory.create_default_config sampleSignupEvent
        RiskBand.low "new_user" (1/100)
      = DecisionMatrixEngine.create_default_decision DecisionMatrixFactory.create_default_config
          sampleSignupEvent RiskBand.low "new_user"
    ∧ DecisionMatrixEngine.decide DecisionMatrixFactory.create_default_config sampleSignupEvent
        RiskBand.low "new_user" (1/100)
      = Except.error "TypeError: DecisionResult got an unexpected keyword argument action"
    ∧ (DecisionMatrixEngine.default_decision_kwargs DecisionMatrixFactory.create_default_config
        sampleSignupEvent RiskBand.low "new_user").action
      = DecisionMatrixFactory.create_default_config.default_action
    ∧ (DecisionMatrixEngine.default_decision_kwargs DecisionMatrixFactory.create_default_config
        sampleSignupEvent RiskBand.low "new_user").confidence
      = 1 - DecisionMatrixEngine.get_risk_score_from_band RiskBand.low
    ∧ DecisionMatrixEngine.get_risk_score_from_band RiskBand.low = 2/10
    ∧ DecisionMatrixEngine.get_risk_score_from_band RiskBand.med = 5/10
    ∧ DecisionMatrixEngine.get_risk_score_from_band RiskBand.high = 7/10
    ∧ DecisionMatrixEngine.get_risk_score_from_band RiskBand.critical = 9/10
    ∧ (DecisionMatrixEngine.default_decision_kwargs DecisionMatrixFactory.create_default_config
        sampleSignupEvent RiskBand.low "new_user").reasons
      = [ "Using default decision for " ++ sampleSignupEvent.event_type
        , "Risk band: " ++ RiskBand.value RiskBand.low
        , "Customer segment: " ++ "new_user"
        , "Max FPR: " ++ fmtFixed 3 DecisionMatrixFactory.create_default_config.default_max_fpr ]
    ∧ dictGet? (DecisionMatrixEngine.default_decision_kwargs
        DecisionMatrixFactory.create_default_config sampleSignupEvent RiskBand.low
        "new_user").metadata "is_default"
      = Option.some (PyVal.bool true) :=
  decide_default_branch_raises DecisionMatrixFactory.create_default_config sampleSignupEvent
    RiskBand.low "new_user" (1/100) (by rfl)

/-- A non-firing AND composition result carries risk 0. -/
theorem evaluate_and_nonfired {α : Type} (self : RuleComposition α) (results : List RuleResult)
    (hf : (RuleComposition.evaluate_and self results).fired = false) :
    (RuleComposition.evaluate_and self results).risk_score = 0 := by
  simp only [RuleComposition.evaluate_and] at hf ⊢
  split
  · rename_i hc
    rw [if_pos hc] at hf
    simp at hf
  · rfl

/-- A non-firing OR composition result carries risk 0. -/
theorem evaluate_or_nonfired {α : Type} (self : RuleComposition α) (results : List RuleResult)
    (hf : (RuleComposition.evaluate_or self results).fired = false) :
    (RuleComposition.evaluate_or self results).risk_score = 0 := by
  simp only [RuleComposition.evaluate_or] at hf ⊢
  split
  · rename_i hc
    rw [if_pos hc] at hf
    simp at hf
  · rfl

/-- A non-firing MAJORITY composition result carries risk 0. -/
theorem evaluate_majority_nonfired {α : Type} (self : RuleComposition α) (results : List RuleResult)
    (hf : (RuleComposition.evaluate_majority self results).fired = false) :
    (RuleComposition.evaluate_majority self results).risk_score = 0 := by
  simp only [RuleComposition.evaluate_majority] at hf ⊢
  split
  · rename_i hc
    rw [if_pos hc] at hf
    simp at hf
  · rfl

/-- C6: every RuleResult produced with fired = false by any of the six rule
evaluators, or by a rule composition, has risk contribution exactly 0. -/
theorem nonfiring_results_carry_zero_risk :
    (∀ (rule : RuleDefinition) (context : RuleEvaluationContext) (result : RuleResult),
      RateLimitEvaluator.evaluate rule context = Except.ok result →
      result.fired = false → result.risk_score = 0)
    ∧ (∀ (rule : RuleDefinition) (context : RuleEvaluationContext) (result : RuleResult),
      VelocityEvaluator.evaluate rule context = Except.ok result →
      result.fired = false → result.risk_score = 0)
    ∧ (∀ (rule : RuleDefinition) (context : RuleEvaluationContext) (result : RuleResult),
      DeviceEvaluator.evaluate rule context = Except.ok result →
      result.fired = false → result.risk_score = 0)
    ∧ (∀ (rule : RuleDefinition) (context : RuleEvaluationContext) (result : RuleResult),
      CustomEvaluator.evaluate rule context = Except.ok result →
      result.fired = false → result.risk_score = 0)
    ∧ (∀ (rule : RuleDefinition) (context : RuleEvaluationContext) (result : RuleResult),
      GeolocationEvaluator.evaluate rule context = Except.ok result →
      result.fired = false → result.risk_score = 0)
    ∧ (∀ (rule : RuleDefinition) (context : RuleEvaluationContext) (result : RuleResult),
      BehaviorEvaluator.evaluate rule context = Except.ok result →
      result.fired = false → result.risk_score = 0)
    ∧ (∀ (α : Type) (comp : RuleComposition α) (context : α) (result : RuleResult),
      RuleComposition.evaluate comp context = Except.ok result →
      result.fired = false → result.risk_score = 0) := by
  refine ⟨?_, ?_, ?_, ?_, ?_, ?_, ?_⟩
  · intro rule context result hok hf
    unfold RateLimitEvaluator.evaluate pyDiv at hok
    simp only [bind, Except.bind, pure, Except.pure] at hok
    split at hok
    · cases hok; rfl
    · split at hok
      · split at hok
        · cases hok
        · cases hok; simp at hf
      · cases hok; rfl
  · intro rule context result hok hf
    unfold VelocityEvaluator.evaluate pyDiv at hok
    simp only [bind, Except.bind, pure, Except.pure] at hok
    split at hok
    · cases hok; rfl
    · split at hok
      · split at hok
        · cases hok
        · cases hok; simp at hf
      · cases hok; rfl
  · intro rule context result hok hf
    unfold DeviceEvaluator.evaluate at hok
    simp only [bind, Except.bind, pure, Except.pure] at hok
    split at hok
    · cases hok; rfl
    · split at hok
      · split at hok
        · cases hok; simp at hf
        · cases hok; rfl
      · cases hok; rfl
  · intro rule context result hok hf
    unfold CustomEvaluator.evaluate at hok
    simp only [bind, Except.bind, pure, Except.pure] at hok
    split at hok
    · cases hok; rfl
    · split at hok
      · cases hok; rfl
      · split at hok
        · cases hok; simp at hf
        · cases hok; rfl
  · intro rule context result hok hf
    unfold GeolocationEvaluator.evaluate at hok
    simp only [bind, Except.bind, pure, Except.pure] at hok
    split at hok
    · cases hok; rfl
    · split at hok
      · cases hok; simp at hf
      · split at hok
        · split at hok
          · cases hok; simp at hf
          · cases hok; rfl
        · cases hok; rfl
  · intro rule context result hok hf
    unfold BehaviorEvaluator.evaluate at hok
    simp only [bind, Except.bind, pure, Except.pure] at hok
    split at hok
    · cases hok; rfl
    · split at hok
      · cases hok; simp at hf
      · cases hok; rfl
  · intro α comp context result hok hf
    simp only [RuleComposition.evaluate] at hok
    split at hok
    · cases hok
      exact evaluate_and_nonfired comp (RuleComposition.gather context comp.rules) hf
    · split at hok
      · cases hok
        exact evaluate_or_nonfired comp (RuleComposition.gather context comp.rules) hf
      · split at hok
        · cases hok
          exact evaluate_majority_nonfired comp (RuleComposition.gather context comp.rules) hf
        · cases hok

/-- C6 (witness): concrete non-firing results of all six evaluators and of an
AND composition, each carrying risk 0. -/
theorem nonfiring_results_carry_zero_risk_witness :
    ({ fired := false, reason := "Invalid rate limit scope: email", risk_score := 0,
         rule_name := "rl_email" } : RuleResult).risk_score = 0
    ∧ ({ fired := false, reason := "Velocity check requires profile scope", risk_score := 0,
         rule_name := "r" } : RuleResult).risk_score = 0
    ∧ ({ fired := false, reason := "No device fingerprint available", risk_score := 0,
         rule_name := "r" } : RuleResult).risk_score = 0
    ∧ ({ fired := false, reason := "Custom rule conditions not met", risk_score := 0,
         rule_name := "r" } : RuleResult).risk_score = 0
    ∧ ({ fired := false, reason := "No geolocation data available", risk_score := 0,
         rule_name := "r" } : RuleResult).risk_score = 0
    ∧ ({ fired := false, reason := "Behavioral analysis not enabled", risk_score := 0,
         rule_name := "r" } : RuleResult).risk_score = 0
    ∧ ({ fired := false, reason := "Not all rules fired", risk_score := 0,
         rule_name := "Composition(AND)" } : RuleResult).risk_score = 0 :=
  ⟨nonfiring_results_carry_zero_risk.1 emailScopeRule bareContext _ (by rfl) (by rfl),
   nonfiring_results_carry_zero_risk.2.1 bareRule bareContext _ (by rfl) (by rfl),
   nonfiring_results_carry_zero_risk.2.2.1 bareRule bareContext _ (by rfl) (by rfl),
   nonfiring_results_carry_zero_risk.2.2.2.1 bareRule bareContext _ (by rfl) (by rfl),
   nonfiring_results_carry_zero_risk.2.2.2.2.1 bareRule bareContext _ (by rfl) (by rfl),
   nonfiring_results_carry_zero_risk.2.2.2.2.2.1 bareRule bareContext _ (by rfl) (by rfl),
   nonfiring_results_carry_zero_risk.2.2.2.2.2.2 Unit { rules := [], operator := "AND" } ()
     _ (by rfl) (by rfl)⟩

/-- With profile scope but no profile in the context, the scope dispatch of
the rate-limit evaluator falls through every branch and reports 0 events. -/
theorem rate_limit_profile_count_zero (context : RuleEvaluationContext)
    (h : context.profile = Option.none) :
    RateLimitEvaluator.get_event_count_for_scope "profile" context = 0 := by
  simp [RateLimitEvaluator.get_event_count_for_scope, h]

/-- C7 (counterexample): a rate-limit rule with profile scope evaluated
against a context carrying no profile does not return the claimed diagnostic
non-firing result.  With max_events = -1 it fires (risk 0); with the default
max_events it returns the generic rate-limit-OK reason, which mentions neither
an unsupported scope nor a missing profile. -/
theorem rate_limit_missing_profile_counterexample :
    (TableDrivenRuleEngine.try_evaluate bareContext profileScopeNegRule).fired = true
    ∧ (TableDrivenRuleEngine.try_evaluate bareContext profileScopeNegRule).risk_score = 0
    ∧ (TableDrivenRuleEngine.try_evaluate bareContext profileScopeRule).fired = false
    ∧ (TableDrivenRuleEngine.try_evaluate bareContext profileScopeRule).reason
      = "Rate limit OK: 0/100 events" := by
  refine ⟨?_, ?_, ?_, ?_⟩ <;>
    simp [TableDrivenRuleEngine.try_evaluate, TableDrivenRuleEngine.evaluate_single_rule,
      RateLimitEvaluator.evaluate, RateLimitEvaluator.get_event_count_for_scope,
      profileScopeNegRule, profileScopeRule, bareRule, bareContext, bareEvent, countsGet,
      dictGet?, pyDiv, bind, Except.bind, pure, Except.pure, min_def] <;>
    rfl

/-- C7 (amended): an unsupported scope yields the diagnostic non-firing
result with risk 0; profile scope without a profile is not specially
diagnosed — the profile event count is read as 0, so the evaluator returns
the generic non-firing rate-limit-OK result when max_events is non-negative,
and fires with risk 0 when max_events is negative. -/
theorem rate_limit_guard_behavior
    (rule : RuleDefinition) (context : RuleEvaluationContext) (scope : String)
    (hscope : rule.conditions.scope = Option.some scope) :
    (¬(scope = "ip" ∨ scope = "profile" ∨ scope = "device") →
      RateLimitEvaluator.evaluate rule context = Except.ok
        { fired := false, reason := "Invalid rate limit scope: " ++ scope,
          risk_score := 0, rule_name := rule.name })
    ∧ (scope = "profile" → context.profile = Option.none →
        0 ≤ rule.conditions.max_events.getD 100 →
        RateLimitEvaluator.evaluate rule context = Except.ok
          { fired := false,
            reason := "Rate limit OK: " ++ toString (0 : Int) ++ "/"
              ++ toString (rule.conditions.max_events.getD 100) ++ " events",
            risk_score := 0, rule_name := rule.name })
    ∧ (scope = "profile" → context.profile = Option.none →
        rule.conditions.max_events.getD 100 < 0 →
        RateLimitEvaluator.evaluate rule context = Except.ok
          { fired := true,
            reason := "Rate limit exceeded: " ++ toString (0 : Int) ++ " events in "
              ++ toString (rule.conditions.time_window_minutes.getD 60) ++ " minutes",
            risk_score := 0, rule_name := rule.name }) := by
  refine ⟨?_, ?_, ?_⟩
  · intro h
    simp [RateLimitEvaluator.evaluate, hscope, h, bind, Except.bind, pure, Except.pure]
  · intro h1 h2 h3
    subst h1
    have hc := rate_limit_profile_count_zero context h2
    have h4 : ¬((0:Int) > rule.conditions.max_events.getD 100) := by omega
    simp [RateLimitEvaluator.evaluate, hscope, hc, h4, bind, Except.bind, pure, Except.pure,
      toString_string_id, String.append_empty]
  · intro h1 h2 h3
    subst h1
    have hc := rate_limit_profile_count_zero context h2
    have h4 : (0:Int) > rule.conditions.max_events.getD 100 := by omega
    have h5 : ¬(((rule.conditions.max_events.getD 100 : Int) : Rat) = 0) := by
      simp
      omega
    simp [RateLimitEvaluator.evaluate, hscope, hc, h4, h5, pyDiv, bind, Except.bind,
      pure, Except.pure, toString_string_id, String.append_empty, min_def]

/-- C7 (witness for the amended claim): the three guard behaviours at
concrete inputs — unsupported email scope, profile scope without a profile at
the default max_events, and profile scope without a profile at
max_events = -1. -/
theorem rate_limit_guard_witness :
    RateLimitEvaluator.evaluate emailScopeRule bareContext = Except.ok
      { fired := false, reason := "Invalid rate limit scope: " ++ "email",
        risk_score := 0, rule_name := "rl_email" }
    ∧ RateLimitEvaluator.evaluate profileScopeRule bareContext = Except.ok
      { fired := false,
        reason := "Rate limit OK: " ++ toString (0 : Int) ++ "/"
          ++ toString (100 : Int) ++ " events",
        risk_score := 0, rule_name := "rl_profile" }
    ∧ RateLimitEvaluator.evaluate profileScopeNegRule bareContext = Except.ok
      { fired := true,
        reason := "Rate limit exceeded: " ++ toString (0 : Int) ++ " events in "
          ++ toString (60 : Int) ++ " minutes",
        risk_score := 0, rule_name := "rl_profile_neg" } :=
  ⟨(rate_limit_guard_behavior emailScopeRule bareContext "email" rfl).1 (by decide),
   (rate_limit_guard_behavior profileScopeRule bareContext "profile" rfl).2.1 rfl rfl (by decide),
   (rate_limit_guard_behavior profileScopeNegRule bareContext "profile" rfl).2.2 rfl rfl
     (by decide)⟩

/-- C9: whenever a rate-limit rule with positive max_events fires, its risk
contribution is exactly 0.9: firing means the scoped count strictly exceeds
max_events, so count/max_events exceeds 1 and min(0.9, count/max_events)
is constantly 0.9. -/
theorem rate_limit_fired_risk_constant
    (rule : RuleDefinition) (context : RuleEvaluationContext) (result : RuleResult)
    (hpos : 0 < rule.conditions.max_events.getD 100)
    (hok : RateLimitEvaluator.evaluate rule context = Except.ok result)
    (hfired : result.fired = true) :
    result.risk_score = 9/10 := by
  unfold RateLimitEvaluator.evaluate pyDiv at hok
  simp only [bind, Except.bind, pure, Except.pure] at hok
  split at hok
  · cases hok; simp at hfired
  · split at hok
    · rename_i hcount
      split at hok
      · cases hok
      · rename_i q hq
        cases hok
        have hm : (0:Rat) < ((rule.conditions.max_events.getD 100 : Int) : Rat) := by
          exact_mod_cast hpos
        rw [if_neg (ne_of_gt hm)] at hq
        have hcq : ((rule.conditions.max_events.getD 100 : Int) : Rat)
            < ((RateLimitEvaluator.get_event_count_for_scope
                (rule.conditions.scope.getD "ip") context : Int) : Rat) := by
          exact_mod_cast hcount
        have h1 : (1:Rat) < ((RateLimitEvaluator.get_event_count_for_scope
            (rule.conditions.scope.getD "ip") context : Int) : Rat)
            / ((rule.conditions.max_events.getD 100 : Int) : Rat) := (one_lt_div hm).mpr hcq
        rw [Except.ok.inj hq] at h1
        show min (9/10 : Rat) q = 9/10
        exact min_eq_left (le_of_lt (lt_trans (by norm_num) h1))
    · cases hok; simp at hfired

/-- C9 (witness): scenario A of the spec — max_events 5, six events on the ip
counter: the rule fires and the risk contribution evaluates to 0.9. -/
theorem rate_limit_fired_risk_constant_witness :
    ({ fired := true, reason := "Rate limit exceeded: " ++ toString (6 : Int) ++ " events in "
         ++ toString (60 : Int) ++ " minutes",
       risk_score := min (9/10 : Rat) ((6 : Rat) / 5), rule_name := "rl_ip5" }
      : RuleResult).risk_score = 9/10 :=
  rate_limit_fired_risk_constant ipLimitFiveRule ipSixContext _ (by decide)
    (by simp [RateLimitEvaluator.evaluate, ipLimitFiveRule, bareRule, ipSixContext, bareContext,
      RateLimitEvaluator.get_event_count_for_scope, countsGet, dictGet?, pyDiv,
      bind, Except.bind, pure, Except.pure, toString_string_id, String.append_empty])
    (by rfl)

/-- Skipping every disabled member leaves the composition with no member
results. -/
theorem gather_all_disabled {α : Type} (context : α) (rules : List (ComposableRule α))
    (h : ∀ r ∈ rules, r.enabled = false) : RuleComposition.gather context rules = [] := by
  induction rules with
  | nil => rfl
  | cons r t ih =>
    have hr := h r (by simp)
    simp [RuleComposition.gather, hr, ih (fun x hx => h x (by simp [hx]))]

/-- C10: for each of the operators AND, OR and MAJORITY, a composition whose
member list is empty or all of whose members are disabled evaluates without
raising to a non-firing result with risk 0. -/
theorem composition_empty_or_disabled_nonfiring
    (α : Type) (comp : RuleComposition α) (context : α)
    (hop : comp.operator = "AND" ∨ comp.operator = "OR" ∨ comp.operator = "MAJORITY")
    (hrules : comp.rules = [] ∨ ∀ r ∈ comp.rules, r.enabled = false) :
    ∃ result, RuleComposition.evaluate comp context = Except.ok result
      ∧ result.fired = false ∧ result.risk_score = 0 := by
  have hg : RuleComposition.gather context comp.rules = [] := by
    rcases hrules with h | h
    · rw [h]
      rfl
    · exact gather_all_disabled context comp.rules h
  rcases hop with h | h | h
  · refine ⟨{ fired := false, reason := "Not all rules fired", risk_score := 0,
                rule_name := RuleComposition.name comp }, ?_, rfl, rfl⟩
    simp [RuleComposition.evaluate, hg, h, RuleComposition.evaluate_and, RuleComposition.name]
  · refine ⟨{ fired := false, reason := "No rules fired", risk_score := 0,
                rule_name := RuleComposition.name comp }, ?_, rfl, rfl⟩
    simp [RuleComposition.evaluate, hg, h, RuleComposition.evaluate_or, RuleComposition.name]
  · refine ⟨{ fired := false, reason := "Majority of rules did not fire", risk_score := 0,
                rule_name := RuleComposition.name comp }, ?_, rfl, rfl⟩
    simp [RuleComposition.evaluate, hg, h, RuleComposition.evaluate_majority,
      RuleComposition.name]

/-- C10 (witness): the empty AND composition over a trivial context type
evaluates to the concrete non-firing zero-risk result. -/
theorem composition_empty_witness :
    ∃ result, RuleComposition.evaluate ({ rules := [], operator := "AND" }
        : RuleComposition Unit) ()
      = Except.ok result ∧ result.fired = false ∧ result.risk_score = 0 :=
  composition_empty_or_disabled_nonfiring Unit { rules := [], operator := "AND" } ()
    (Or.inl rfl) (Or.inl rfl)

/-- Ordered insertion of an element with priority p prepends it to the
p-priority subsequence: every element it walks past has strictly greater
priority. -/
theorem filter_orderedInsert_same (a : RuleDefinition) (l : List RuleDefinition) (p : Int)
    (ha : a.priority = p) :
    (List.orderedInsert prioGE a l).filter (fun r => r.priority = p)
      = a :: l.filter (fun r => r.priority = p) := by
  induction l with
  | nil => simp [List.orderedInsert, ha]
  | cons b t ih =>
    by_cases hb : prioGE a b
    · simp [List.orderedInsert, hb, List.filter_cons, ha]
    · have hbp : ¬(b.priority = p) := by
        intro hcontra
        exact hb (le_of_eq (by rw [hcontra, ha]))
      simp [List.orderedInsert, hb, List.filter_cons, hbp, ih]

/-- Ordered insertion of an element with priority other than p leaves the
p-priority subsequence unchanged. -/
theorem filter_orderedInsert_other (a : RuleDefinition) (l : List RuleDefinition) (p : Int)
    (ha : ¬(a.priority = p)) :
    (List.orderedInsert prioGE a l).filter (fun r => r.priority = p)
      = l.filter (fun r => r.priority = p) := by
  induction l with
  | nil => simp [List.orderedInsert, ha]
  | cons b t ih =>
    by_cases hb : prioGE a b
    · simp [List.orderedInsert, hb, List.filter_cons, ha]
    · simp [List.orderedInsert, hb, List.filter_cons, ih]

/-- The descending-priority sort is stable: for every priority p, the
subsequence of p-priority rules is exactly that of the input. -/
theorem filter_pySorted_stable (l : List RuleDefinition) (p : Int) :
    (pySortedDescPriority l).filter (fun r => r.priority = p)
      = l.filter (fun r => r.priority = p) := by
  induction l with
  | nil => rfl
  | cons a t ih =>
    show (List.orderedInsert prioGE a (List.insertionSort prioGE t)).filter
        (fun r => r.priority = p) = _
    by_cases ha : a.priority = p
    · rw [filter_orderedInsert_same a _ p ha]
      have iht : (List.insertionSort prioGE t).filter (fun r => r.priority = p)
          = t.filter (fun r => r.priority = p) := ih
      simp [List.filter_cons, ha, iht]
    · rw [filter_orderedInsert_other a _ p ha]
      have iht : (List.insertionSort prioGE t).filter (fun r => r.priority = p)
          = t.filter (fun r => r.priority = p) := ih
      simp [List.filter_cons, ha, iht]

/-- C8: `evaluate_rules` produces exactly one result per enabled rule (none
for disabled ones), in the order of the stable descending-priority sort of
the input — a permutation of the input, sorted so that priorities never
increase, preserving the input order within every priority class — and every
enabled rule is evaluated (the map is over the full filtered list, with no
short-circuiting on fired results). -/
theorem evaluate_rules_priority_order
    (rules : List RuleDefinition) (context : RuleEvaluationContext) :
    TableDrivenRuleEngine.evaluate_rules rules context
      = ((pySortedDescPriority rules).filter (fun r => r.enabled)).map
          (TableDrivenRuleEngine.try_evaluate context)
    ∧ List.Perm (pySortedDescPriority rules) rules
    ∧ List.Sorted prioGE (pySortedDescPriority rules)
    ∧ ∀ p : Int, (pySortedDescPriority rules).filter (fun r => r.priority = p)
        = rules.filter (fun r => r.priority = p) := by
  refine ⟨?_, List.perm_insertionSort prioGE rules, List.sorted_insertionSort prioGE rules,
    fun p => filter_pySorted_stable rules p⟩
  unfold TableDrivenRuleEngine.evaluate_rules
  generalize pySortedDescPriority rules = l
  induction l with
  | nil => rfl
  | cons r t ih =>
    by_cases h : r.enabled <;>
      simp [TableDrivenRuleEngine.run_rules, h, ih, List.filter_cons]
